import Mathlib

/-!
# pulumi-aws-vpc: the `NewPulubmiAwsVpc` component constructor

A shallow embedding of `provider/pkg/provider/pulumiAwsVpc.go`.

The Go code describes cloud resources by calling the resource SDK, which
registers each description with the orchestration engine behind `ctx`.  The
embedding makes that explicit:

* a `Context` holds the registrations made so far, in order, and the debug
  diagnostics written to `ctx.Log`;
* the engine is a parameter (`Engine`): for each registration it answers
  whether it is accepted or rejected with an error;
* identifiers assigned by the engine (`res.ID()`, `eip.AllocationId`) are
  symbolic outputs (`Out`), as they are in the SDK, where they are promises;
* a computation is a function from `Context` to an `Outcome`, which keeps the
  context also when the Go function returns an error or panics.
-/

namespace Provider

/-! ## Values and resources of the SDK -/

/-- The resource types the program registers. -/
inductive Kind where
  | component
  | vpc
  | internetGateway
  | subnet
  | routeTable
  | route
  | routeTableAssociation
  | eip
  | natGateway
  deriving DecidableEq, Repr

/-- A string output of the SDK: a literal (`p.String(s)`), the identifier the
engine assigns to a registered resource (`res.ID()`), or the allocation id of an
elastic IP (`eip.AllocationId`). -/
inductive Out where
  | lit (s : String)
  | id (kind : Kind) (name : String)
  | allocationId (name : String)
  deriving DecidableEq, Repr

/-- A `p.StringInput`: an interface value, `nil` (`none`) or a string value. -/
abbrev StringInput := Option Out

/-- A `p.ResourceOption`; the program only uses `p.Parent(component)`, and the
component is identified by the name it is registered under. -/
inductive ResourceOption where
  | Parent (component : String)
  deriving DecidableEq, Repr

/-- The argument records of the registrations (`ec2.VpcArgs`, `ec2.SubnetArgs`,
...), with the fields the program sets. `component` carries the type token given
to `RegisterComponentResource`. -/
inductive Args where
  | component (typ : String)
  | vpc (InstanceTenancy : Out) (CidrBlock : StringInput)
      (EnableDnsSupport : Bool) (EnableDnsHostnames : Bool)
  | internetGateway (VpcId : Out)
  | subnet (VpcId : Out) (AvailabilityZone : StringInput) (CidrBlock : StringInput)
  | routeTable (VpcId : Out)
  | route (RouteTableId : Out) (DestinationCidrBlock : Out) (GatewayId : Option Out)
  | routeTableAssociation (RouteTableId : Out) (SubnetId : Out)
  | eip (Vpc : Bool)
  | natGateway (AllocationId : Out) (SubnetId : Out)
  deriving DecidableEq, Repr

/-- One resource description as handed to the engine: logical name, options and
arguments. -/
structure Resource where
  name : String
  opts : List ResourceOption
  args : Args
  deriving DecidableEq, Repr

/-- The state behind `ctx *p.Context`: the resources described so far, oldest
first, and the messages written with `ctx.Log.Debug`. -/
structure Context where
  registered : List Resource
  debugLog : List String
  deriving DecidableEq, Repr

/-- The orchestration engine, which is not part of the repository: given the
registrations made so far and a new one, it accepts (`none`) or rejects with an
error message. -/
structure Engine where
  rejects : List Resource → Resource → Option String

/-- The errors `NewPulubmiAwsVpc` returns: its own input error
(`fmt.Errorf(...)`) or the error of a failed registration, passed on unchanged. -/
inductive Err where
  | invalidInput (msg : String)
  | provisioning (msg : String)
  deriving DecidableEq, Repr

/-- How a Go call ends: it returns a value, returns an error, or panics (a nil
pointer dereference). The context is kept in every case. -/
inductive Outcome (α : Type) where
  | ok (ctx : Context) (val : α)
  | fail (ctx : Context) (err : Err)
  | panic (ctx : Context) (msg : String)
  deriving DecidableEq, Repr

/-- A computation against the context. -/
def M (α : Type) : Type := Context → Outcome α

/-- Return a value, leaving the context as it is. -/
def M.pure {α : Type} (a : α) : M α := fun ctx => Outcome.ok ctx a

/-- Sequencing: `if err != nil { return nil, err }` after every call, and a
panic unwinds. -/
def M.bind {α β : Type} (m : M α) (f : α → M β) : M β := fun ctx =>
  match m ctx with
  | Outcome.ok ctx1 a => f a ctx1
  | Outcome.fail ctx1 e => Outcome.fail ctx1 e
  | Outcome.panic ctx1 msg => Outcome.panic ctx1 msg

instance : Monad M where
  pure := M.pure
  bind := M.bind

/-- The statement `return nil, err`. -/
def M.fail {α : Type} (e : Err) : M α := fun ctx => Outcome.fail ctx e

/-- The expression `*p` for a `*bool`: a nil pointer dereference panics. -/
def deref (p : Option Bool) : M Bool := fun ctx =>
  match p with
  | some b => Outcome.ok ctx b
  | none => Outcome.panic ctx "invalid memory address or nil pointer dereference"

/-- The call `ctx.Log.Debug(msg, nil)`. -/
def debug (msg : String) : M Unit := fun ctx =>
  Outcome.ok { ctx with debugLog := ctx.debugLog ++ [msg] } ()

/-- Registration of one resource description, as done inside
`ctx.RegisterComponentResource` and the `ec2.New...` constructors: the engine
rejects it with an error, or it is appended to the described resources. -/
def register (eng : Engine) (r : Resource) : M Unit := fun ctx =>
  match eng.rejects ctx.registered r with
  | some msg => Outcome.fail ctx (Err.provisioning msg)
  | none => Outcome.ok { ctx with registered := ctx.registered ++ [r] } ()

/-! ## The configuration and the component -/

/-- Set of arguments for created individual subnets in an availability zone. -/
structure SubnetAvailabilityZoneConfig where
  AvailabilityZone : StringInput
  PublicSubnetCidr : StringInput
  PrivateSubnetCidr : StringInput
  IsolatedSubnetCidr : StringInput
  CreateNatGateway : Option Bool
  deriving DecidableEq, Repr

/-- The set of arguments for creating a Pulumi AWS VPC component resource. -/
structure PulumiAwsVpcArgs where
  CidrBlock : StringInput
  CreatePublicSubnets : Option Bool
  CreatePrivateSubnets : Option Bool
  CreateIsolatedSubnets : Option Bool
  EnableDnsHostnames : Option Bool
  EnableDnsSupport : Option Bool
  SubnetAvailabilityZoneConfig : List SubnetAvailabilityZoneConfig
  InstanceTenancy : StringInput
  deriving DecidableEq, Repr

/-- The Go zero value `PulumiAwsVpcArgs{}`. -/
def PulumiAwsVpcArgs.zero : PulumiAwsVpcArgs :=
  { CidrBlock := none, CreatePublicSubnets := none, CreatePrivateSubnets := none,
    CreateIsolatedSubnets := none, EnableDnsHostnames := none, EnableDnsSupport := none,
    SubnetAvailabilityZoneConfig := [], InstanceTenancy := none }

/-- The component resource with its outputs. A field the program never assigns
keeps the zero value of its output type, `none`. -/
structure PulumiAwsVpc where
  VpcId : Option Out
  PrivateSubnetIDs : Option (List Out)
  PublicSubnetIDs : Option (List Out)
  IsolatedSubnetIds : Option (List Out)
  NatGatewayIds : Option (List Out)
  deriving DecidableEq, Repr

/-- The Go zero value `PulumiAwsVpc{}`. -/
def PulumiAwsVpc.zero : PulumiAwsVpc :=
  { VpcId := none, PrivateSubnetIDs := none, PublicSubnetIDs := none,
    IsolatedSubnetIds := none, NatGatewayIds := none }

/-- The four slices the zone loop appends to. -/
structure Lists where
  publicSubnets : List Out
  privateSubnets : List Out
  isolatedSubnets : List Out
  gatewayIps : List Out
  deriving DecidableEq, Repr

/-! ## The program -/

/-- The helper `newSubnet`: a subnet, a route table, a route and an association,
in this order; it returns the subnet (here: its identifier `sub.ID()`).
`gatewayId` is a pointer: the public branch of the loop passes the internet
gateway's identifier, the private branch its variable `nat`, the isolated branch
`nil`.

* the subnet's `CidrBlock` is `az.PublicSubnetCidr`, whatever the caller;
* `if gatewayId != nil { }` has an empty body, so the route is described in
  every case, with `GatewayId: gatewayId`;
* the route table's name is `fmt.Sprint("%s-rt", name)`: `Sprint` does not
  format, it concatenates its operands (without a space, both being strings). -/
def newSubnet (eng : Engine) (name : String) (vpcId : Out) (gatewayId : Option Out)
    (az : SubnetAvailabilityZoneConfig) (component : String) : M Out := do
  let subName := name ++ "-subnet"
  register eng ⟨subName, [ResourceOption.Parent component],
    Args.subnet vpcId az.AvailabilityZone az.PublicSubnetCidr⟩
  let rtName := "%s-rt" ++ name
  register eng ⟨rtName, [ResourceOption.Parent component], Args.routeTable vpcId⟩
  register eng ⟨name ++ "-route", [ResourceOption.Parent component],
    Args.route (Out.id Kind.routeTable rtName) (Out.lit "0.0.0.0/0") gatewayId⟩
  register eng ⟨name ++ "-rt-assoc", [ResourceOption.Parent component],
    Args.routeTableAssociation (Out.id Kind.routeTable rtName) (Out.id Kind.subnet subName)⟩
  pure (Out.id Kind.subnet subName)

/-- The NAT gateway block of the public branch, entered under
`if az.CreateNatGateway != nil && *az.CreateNatGateway`, that is when the flag is
set and true: an elastic IP and a NAT gateway, whose identifier is appended to
`gatewayIps`. The NAT gateway is bound by `nat, err := ...` inside the block, a
new variable that is gone when the block ends. -/
def natGatewayBlock (eng : Engine) (name : String) (i : Nat)
    (az : SubnetAvailabilityZoneConfig) (sub : Out) (acc : Lists) : M Lists :=
  if az.CreateNatGateway = some true then do
    let ipName := name ++ "-eip-" ++ toString i
    register eng ⟨ipName, [ResourceOption.Parent name], Args.eip true⟩
    let natName := name ++ "-natgateway-" ++ toString i
    register eng ⟨natName, [ResourceOption.Parent name],
      Args.natGateway (Out.allocationId ipName) sub⟩
    let nat : Out := Out.id Kind.natGateway natName
    pure { acc with gatewayIps := acc.gatewayIps ++ [nat] }
  else
    pure acc

/-- The body of `for i, az := range args.SubnetAvailabilityZoneConfig`.

An unset availability zone writes a diagnostic and the body goes on. `nat` is
the variable declared by `var nat *ec2.NatGateway` (nil); nothing assigns it, the
NAT gateway block binding a variable of its own, and it is what the private
branch hands to `newSubnet` as the gateway.

The Go call sites give `newSubnet` an output value (public branch) and a resource
pointer (private branch) where its parameter is a pointer to an output; the
embedding reads a value as the identifier it stands for and the nil pointer as
no gateway. -/
def zoneIteration (eng : Engine) (name : String) (vpcId igwId : Out)
    (createPublicSubnets createPrivateSubnets createIsolatedSubnets : Bool)
    (i : Nat) (az : SubnetAvailabilityZoneConfig) (acc : Lists) : M Lists := do
  (if az.AvailabilityZone = none then
    debug "availability zone config is nil; no subnets created"
  else
    pure ())
  let nat : Option Out := none
  let acc ←
    (if createPublicSubnets && az.PublicSubnetCidr != none then do
      let sub ← newSubnet eng (name ++ "-public-" ++ toString i) vpcId (some igwId) az name
      let acc ← natGatewayBlock eng name i az sub acc
      pure { acc with publicSubnets := acc.publicSubnets ++ [sub] }
    else
      pure acc)
  let acc ←
    (if createPrivateSubnets && az.PrivateSubnetCidr != none then do
      let sub ← newSubnet eng (name ++ "-private-" ++ toString i) vpcId nat az name
      pure { acc with privateSubnets := acc.privateSubnets ++ [sub] }
    else
      pure acc)
  (if createIsolatedSubnets && az.IsolatedSubnetCidr != none then do
    let sub ← newSubnet eng (name ++ "-isolated-" ++ toString i) vpcId none az name
    pure { acc with isolatedSubnets := acc.isolatedSubnets ++ [sub] }
  else
    pure acc)

/-- The loop over the zone entries, from index `i` on. -/
def zoneLoop (eng : Engine) (name : String) (vpcId igwId : Out)
    (createPublicSubnets createPrivateSubnets createIsolatedSubnets : Bool) :
    Nat → List SubnetAvailabilityZoneConfig → Lists → M Lists
  | _, [], acc => pure acc
  | i, az :: rest, acc => do
    let acc ← zoneIteration eng name vpcId igwId
      createPublicSubnets createPrivateSubnets createIsolatedSubnets i az acc
    zoneLoop eng name vpcId igwId
      createPublicSubnets createPrivateSubnets createIsolatedSubnets (i + 1) rest acc

/-- The constructor `NewPulubmiAwsVpc(ctx, name, args, opts...)`; `args` is a
pointer and may be nil. The caller's `opts` are handed to the engine with the
component and read by nothing here.

The public flag is read under the test of the private one
(`if args.CreatePrivateSubnets != nil { createPublicSubnets = *args.CreatePublicSubnets }`),
and the returned component has `VpcId` and the three subnet lists assigned, not
`NatGatewayIds`. -/
def NewPulubmiAwsVpc (eng : Engine) (name : String) (args : Option PulumiAwsVpcArgs) :
    M PulumiAwsVpc := do
  let args := args.getD PulumiAwsVpcArgs.zero
  if args.CidrBlock = none then
    M.fail (Err.invalidInput "cidr block must be a valid non-nil value")
  else do
    let component := PulumiAwsVpc.zero
    register eng ⟨name, [], Args.component "pulumi-aws-vpc:index:AwsVpc"⟩
    let tenancy : Out :=
      match args.InstanceTenancy with
      | some t => t
      | none => Out.lit "default"
    let enabledDnsHostnames ←
      (if args.EnableDnsHostnames != none then deref args.EnableDnsHostnames else pure true)
    let enableDnsSupport ←
      (if args.EnableDnsSupport != none then deref args.EnableDnsSupport else pure true)
    let vpcName := name ++ "-vpc"
    register eng ⟨vpcName, [ResourceOption.Parent name],
      Args.vpc tenancy args.CidrBlock enableDnsSupport enabledDnsHostnames⟩
    let vpcId := Out.id Kind.vpc vpcName
    let igwName := name ++ "-igw"
    register eng ⟨igwName, [ResourceOption.Parent name], Args.internetGateway vpcId⟩
    let igwId := Out.id Kind.internetGateway igwName
    let createPublicSubnets ←
      (if args.CreatePrivateSubnets != none then deref args.CreatePublicSubnets else pure true)
    let createPrivateSubnets ←
      (if args.CreatePrivateSubnets != none then deref args.CreatePrivateSubnets else pure true)
    let createIsolatedSubnets ←
      (if args.CreateIsolatedSubnets != none then deref args.CreateIsolatedSubnets else pure true)
    let lists ← zoneLoop eng name vpcId igwId
      createPublicSubnets createPrivateSubnets createIsolatedSubnets
      0 args.SubnetAvailabilityZoneConfig ⟨[], [], [], []⟩
    pure { component with
      VpcId := some vpcId
      PublicSubnetIDs := some lists.publicSubnets
      PrivateSubnetIDs := some lists.privateSubnets
      IsolatedSubnetIds := some lists.isolatedSubnets }

/-! ## An engine and a context to evaluate the program with -/

/-- An engine that accepts every registration. -/
def acceptAll : Engine := ⟨fun _ _ => none⟩

/-- The context of a fresh program: nothing described, nothing logged. -/
def Context.empty : Context := ⟨[], []⟩

/-! ## The resources a successful run describes, written out as data

These lists are not part of the program: they are what the lemmas below show the
program to register, and the theorems compare the program against them. -/

/-- The four descriptions `newSubnet` registers when every one is accepted. -/
def subnetResources (name : String) (vpcId : Out) (gatewayId : Option Out)
    (az : SubnetAvailabilityZoneConfig) (component : String) : List Resource :=
  [ ⟨name ++ "-subnet", [ResourceOption.Parent component],
      Args.subnet vpcId az.AvailabilityZone az.PublicSubnetCidr⟩,
    ⟨"%s-rt" ++ name, [ResourceOption.Parent component], Args.routeTable vpcId⟩,
    ⟨name ++ "-route", [ResourceOption.Parent component],
      Args.route (Out.id Kind.routeTable ("%s-rt" ++ name)) (Out.lit "0.0.0.0/0") gatewayId⟩,
    ⟨name ++ "-rt-assoc", [ResourceOption.Parent component],
      Args.routeTableAssociation (Out.id Kind.routeTable ("%s-rt" ++ name))
        (Out.id Kind.subnet (name ++ "-subnet"))⟩ ]

/-- The two descriptions of the NAT gateway block, when it is entered. -/
def natGatewayResources (name : String) (i : Nat) (az : SubnetAvailabilityZoneConfig)
    (sub : Out) : List Resource :=
  if az.CreateNatGateway = some true then
    [ ⟨name ++ "-eip-" ++ toString i, [ResourceOption.Parent name], Args.eip true⟩,
      ⟨name ++ "-natgateway-" ++ toString i, [ResourceOption.Parent name],
        Args.natGateway (Out.allocationId (name ++ "-eip-" ++ toString i)) sub⟩ ]
  else []

/-- What one pass of the loop body registers for zone `i`: the public branch,
then the private one, then the isolated one. -/
def zoneResources (name : String) (vpcId igwId : Out)
    (createPublicSubnets createPrivateSubnets createIsolatedSubnets : Bool)
    (i : Nat) (az : SubnetAvailabilityZoneConfig) : List Resource :=
  (if createPublicSubnets && az.PublicSubnetCidr != none then
      subnetResources (name ++ "-public-" ++ toString i) vpcId (some igwId) az name ++
        natGatewayResources name i az
          (Out.id Kind.subnet (name ++ "-public-" ++ toString i ++ "-subnet"))
    else []) ++
  (if createPrivateSubnets && az.PrivateSubnetCidr != none then
      subnetResources (name ++ "-private-" ++ toString i) vpcId none az name
    else []) ++
  (if createIsolatedSubnets && az.IsolatedSubnetCidr != none then
      subnetResources (name ++ "-isolated-" ++ toString i) vpcId none az name
    else [])

/-- What one pass of the loop body appends to the four slices. -/
def zoneLists (name : String)
    (createPublicSubnets createPrivateSubnets createIsolatedSubnets : Bool)
    (i : Nat) (az : SubnetAvailabilityZoneConfig) : Lists :=
  { publicSubnets :=
      if createPublicSubnets && az.PublicSubnetCidr != none then
        [Out.id Kind.subnet (name ++ "-public-" ++ toString i ++ "-subnet")] else [],
    privateSubnets :=
      if createPrivateSubnets && az.PrivateSubnetCidr != none then
        [Out.id Kind.subnet (name ++ "-private-" ++ toString i ++ "-subnet")] else [],
    isolatedSubnets :=
      if createIsolatedSubnets && az.IsolatedSubnetCidr != none then
        [Out.id Kind.subnet (name ++ "-isolated-" ++ toString i ++ "-subnet")] else [],
    gatewayIps :=
      if createPublicSubnets && az.PublicSubnetCidr != none then
        (if az.CreateNatGateway = some true then
          [Out.id Kind.natGateway (name ++ "-natgateway-" ++ toString i)] else [])
      else [] }

/-- Field by field concatenation of the four slices. -/
def Lists.append (a b : Lists) : Lists :=
  { publicSubnets := a.publicSubnets ++ b.publicSubnets,
    privateSubnets := a.privateSubnets ++ b.privateSubnets,
    isolatedSubnets := a.isolatedSubnets ++ b.isolatedSubnets,
    gatewayIps := a.gatewayIps ++ b.gatewayIps }

/-- The diagnostic of one pass of the loop body. -/
def zoneDebug (az : SubnetAvailabilityZoneConfig) : List String :=
  if az.AvailabilityZone = none then
    ["availability zone config is nil; no subnets created"] else []

/-- The value of the local `createPublicSubnets` in a run that gets past the
reading of the flags: `true` when `CreatePrivateSubnets` is unset, else the value
`CreatePublicSubnets` points to. -/
def publicSubnetsOn (args : PulumiAwsVpcArgs) : Bool :=
  args.CreatePrivateSubnets == none || args.CreatePublicSubnets == some true

/-- The value of the local `createPrivateSubnets`. -/
def privateSubnetsOn (args : PulumiAwsVpcArgs) : Bool :=
  args.CreatePrivateSubnets.getD true

/-- The value of the local `createIsolatedSubnets`. -/
def isolatedSubnetsOn (args : PulumiAwsVpcArgs) : Bool :=
  args.CreateIsolatedSubnets.getD true

/-- What the private and the isolated branch of one pass register for zone `i`. -/
def privateIsolatedResources (name : String) (vpcId : Out)
    (createPrivateSubnets createIsolatedSubnets : Bool)
    (i : Nat) (az : SubnetAvailabilityZoneConfig) : List Resource :=
  (if createPrivateSubnets && az.PrivateSubnetCidr != none then
      subnetResources (name ++ "-private-" ++ toString i) vpcId none az name
    else []) ++
  (if createIsolatedSubnets && az.IsolatedSubnetCidr != none then
      subnetResources (name ++ "-isolated-" ++ toString i) vpcId none az name
    else [])

/-- The instance tenancy handed to the VPC: the configured one, or the literal
`"default"`. -/
def tenancyOf (args : PulumiAwsVpcArgs) : Out :=
  match args.InstanceTenancy with
  | some t => t
  | none => Out.lit "default"

/-! ## A configuration with two zones, and what the program describes for it -/

/-- Two zones: the first with a public and a private CIDR and a NAT gateway
requested, the second with a public and an isolated CIDR. -/
def twoZones : PulumiAwsVpcArgs :=
  { PulumiAwsVpcArgs.zero with
    CidrBlock := some (Out.lit "10.0.0.0/16")
    SubnetAvailabilityZoneConfig :=
      [ ⟨some (Out.lit "us-east-1a"), some (Out.lit "10.0.0.0/24"),
          some (Out.lit "10.0.1.0/24"), none, some true⟩,
        ⟨some (Out.lit "us-east-1b"), some (Out.lit "10.0.2.0/24"),
          none, some (Out.lit "10.0.3.0/24"), none⟩ ] }

/-- The context after `NewPulubmiAwsVpc` ran on `twoZones` under the name `net`,
every registration being accepted. -/
def twoZonesContext : Context :=
  ⟨[ ⟨"net", [], Args.component "pulumi-aws-vpc:index:AwsVpc"⟩,
      ⟨"net-vpc", [ResourceOption.Parent "net"],
        Args.vpc (Out.lit "default") (some (Out.lit "10.0.0.0/16")) true true⟩,
      ⟨"net-igw", [ResourceOption.Parent "net"],
        Args.internetGateway (Out.id Kind.vpc "net-vpc")⟩,
      ⟨"net-public-0-subnet", [ResourceOption.Parent "net"],
        Args.subnet (Out.id Kind.vpc "net-vpc") (some (Out.lit "us-east-1a"))
          (some (Out.lit "10.0.0.0/24"))⟩,
      ⟨"%s-rtnet-public-0", [ResourceOption.Parent "net"],
        Args.routeTable (Out.id Kind.vpc "net-vpc")⟩,
      ⟨"net-public-0-route", [ResourceOption.Parent "net"],
        Args.route (Out.id Kind.routeTable "%s-rtnet-public-0")
          (Out.lit "0.0.0.0/0") (some (Out.id Kind.internetGateway "net-igw"))⟩,
      ⟨"net-public-0-rt-assoc", [ResourceOption.Parent "net"],
        Args.routeTableAssociation (Out.id Kind.routeTable "%s-rtnet-public-0")
          (Out.id Kind.subnet "net-public-0-subnet")⟩,
      ⟨"net-eip-0", [ResourceOption.Parent "net"], Args.eip true⟩,
      ⟨"net-natgateway-0", [ResourceOption.Parent "net"],
        Args.natGateway (Out.allocationId "net-eip-0")
          (Out.id Kind.subnet "net-public-0-subnet")⟩,
      ⟨"net-private-0-subnet", [ResourceOption.Parent "net"],
        Args.subnet (Out.id Kind.vpc "net-vpc") (some (Out.lit "us-east-1a"))
          (some (Out.lit "10.0.0.0/24"))⟩,
      ⟨"%s-rtnet-private-0", [ResourceOption.Parent "net"],
        Args.routeTable (Out.id Kind.vpc "net-vpc")⟩,
      ⟨"net-private-0-route", [ResourceOption.Parent "net"],
        Args.route (Out.id Kind.routeTable "%s-rtnet-private-0")
          (Out.lit "0.0.0.0/0") none⟩,
      ⟨"net-private-0-rt-assoc", [ResourceOption.Parent "net"],
        Args.routeTableAssociation (Out.id Kind.routeTable "%s-rtnet-private-0")
          (Out.id Kind.subnet "net-private-0-subnet")⟩,
      ⟨"net-public-1-subnet", [ResourceOption.Parent "net"],
        Args.subnet (Out.id Kind.vpc "net-vpc") (some (Out.lit "us-east-1b"))
          (some (Out.lit "10.0.2.0/24"))⟩,
      ⟨"%s-rtnet-public-1", [ResourceOption.Parent "net"],
        Args.routeTable (Out.id Kind.vpc "net-vpc")⟩,
      ⟨"net-public-1-route", [ResourceOption.Parent "net"],
        Args.route (Out.id Kind.routeTable "%s-rtnet-public-1")
          (Out.lit "0.0.0.0/0") (some (Out.id Kind.internetGateway "net-igw"))⟩,
      ⟨"net-public-1-rt-assoc", [ResourceOption.Parent "net"],
        Args.routeTableAssociation (Out.id Kind.routeTable "%s-rtnet-public-1")
          (Out.id Kind.subnet "net-public-1-subnet")⟩,
      ⟨"net-isolated-1-subnet", [ResourceOption.Parent "net"],
        Args.subnet (Out.id Kind.vpc "net-vpc") (some (Out.lit "us-east-1b"))
          (some (Out.lit "10.0.2.0/24"))⟩,
      ⟨"%s-rtnet-isolated-1", [ResourceOption.Parent "net"],
        Args.routeTable (Out.id Kind.vpc "net-vpc")⟩,
      ⟨"net-isolated-1-route", [ResourceOption.Parent "net"],
        Args.route (Out.id Kind.routeTable "%s-rtnet-isolated-1")
          (Out.lit "0.0.0.0/0") none⟩,
      ⟨"net-isolated-1-rt-assoc", [ResourceOption.Parent "net"],
        Args.routeTableAssociation (Out.id Kind.routeTable "%s-rtnet-isolated-1")
          (Out.id Kind.subnet "net-isolated-1-subnet")⟩ ],
    []⟩

/-- The component returned for `twoZones`. -/
def twoZonesComponent : PulumiAwsVpc :=
  { VpcId := some (Out.id Kind.vpc "net-vpc"),
    PrivateSubnetIDs := some [Out.id Kind.subnet "net-private-0-subnet"],
    PublicSubnetIDs := some
      [Out.id Kind.subnet "net-public-0-subnet", Out.id Kind.subnet "net-public-1-subnet"],
    IsolatedSubnetIds := some [Out.id Kind.subnet "net-isolated-1-subnet"],
    NatGatewayIds := none }

/-! ## Configurations on which the program is evaluated -/

/-- One zone with a public and a private CIDR, and a NAT gateway requested. -/
def natZone : PulumiAwsVpcArgs :=
  { PulumiAwsVpcArgs.zero with
    CidrBlock := some (Out.lit "10.0.0.0/16")
    SubnetAvailabilityZoneConfig :=
      [ ⟨some (Out.lit "us-east-1a"), some (Out.lit "10.0.0.0/24"),
            some (Out.lit "10.0.1.0/24"), none, some true⟩ ] }

/-- One zone with an isolated CIDR and nothing else. -/
def isolatedZone : PulumiAwsVpcArgs :=
  { PulumiAwsVpcArgs.zero with
    CidrBlock := some (Out.lit "10.0.0.0/16")
    SubnetAvailabilityZoneConfig :=
      [ ⟨some (Out.lit "us-east-1a"), none,
            none, some (Out.lit "10.0.3.0/24"), none⟩ ] }

/-- No zone, with `createPrivateSubnets` set and `createPublicSubnets` unset. -/
def privateFlagOnly : PulumiAwsVpcArgs :=
  { PulumiAwsVpcArgs.zero with
    CidrBlock := some (Out.lit "10.0.0.0/16")
    CreatePrivateSubnets := some true }

/-- One zone with a public CIDR, with `createPublicSubnets` set to false and the
other flags unset. -/
def publicOff : PulumiAwsVpcArgs :=
  { PulumiAwsVpcArgs.zero with
    CidrBlock := some (Out.lit "10.0.0.0/16")
    CreatePublicSubnets := some false
    SubnetAvailabilityZoneConfig :=
      [ ⟨some (Out.lit "us-east-1a"), some (Out.lit "10.0.0.0/24"),
            none, none, none⟩ ] }

/-- One zone with a public and an isolated CIDR, with `createPublicSubnets` and
`createIsolatedSubnets` set to false and `createPrivateSubnets` unset. -/
def publicIsolatedOff : PulumiAwsVpcArgs :=
  { PulumiAwsVpcArgs.zero with
    CidrBlock := some (Out.lit "10.0.0.0/16")
    CreatePublicSubnets := some false
    CreateIsolatedSubnets := some false
    SubnetAvailabilityZoneConfig :=
      [ ⟨some (Out.lit "us-east-1a"), some (Out.lit "10.0.0.0/24"),
            none, some (Out.lit "10.0.3.0/24"), none⟩ ] }

/-- One zone entry without an availability zone, carrying a public CIDR. -/
def unnamedZone : PulumiAwsVpcArgs :=
  { PulumiAwsVpcArgs.zero with
    CidrBlock := some (Out.lit "10.0.0.0/16")
    SubnetAvailabilityZoneConfig :=
      [ ⟨none, some (Out.lit "10.0.0.0/24"),
            none, none, none⟩ ] }

/-- One zone with a public CIDR and a NAT gateway requested. -/
def publicNatZone : PulumiAwsVpcArgs :=
  { PulumiAwsVpcArgs.zero with
    CidrBlock := some (Out.lit "10.0.0.0/16")
    SubnetAvailabilityZoneConfig :=
      [ ⟨some (Out.lit "us-east-1a"), some (Out.lit "10.0.0.0/24"),
            none, none, some true⟩ ] }

/-- One zone with a public, a private and an isolated CIDR, all different. -/
def threeKinds : PulumiAwsVpcArgs :=
  { PulumiAwsVpcArgs.zero with
    CidrBlock := some (Out.lit "10.0.0.0/16")
    SubnetAvailabilityZoneConfig :=
      [ ⟨some (Out.lit "us-east-1a"), some (Out.lit "10.0.0.0/24"),
            some (Out.lit "10.0.1.0/24"), some (Out.lit "10.0.3.0/24"), none⟩ ] }

/-- A configuration whose `cidrBlock` is the empty string. -/
def emptyCidr : PulumiAwsVpcArgs :=
  { PulumiAwsVpcArgs.zero with CidrBlock := some (Out.lit "") }

/-! ## Lemmas on the computations -/

theorem bind_ok_iff {α β : Type} (m : M α) (f : α → M β) (ctx c : Context) (v : β) :
    (m >>= f) ctx = Outcome.ok c v ↔
      ∃ c1 a, m ctx = Outcome.ok c1 a ∧ f a c1 = Outcome.ok c v := by
  show M.bind m f ctx = Outcome.ok c v ↔ _
  unfold M.bind
  cases hm : m ctx with
  | ok c1 a =>
    constructor
    · intro h; exact ⟨c1, a, rfl, h⟩
    · rintro ⟨c2, b, hb, h⟩
      cases hb
      exact h
  | fail c1 e => simp
  | panic c1 msg => simp

theorem pure_ok_iff {α : Type} (a : α) (ctx c : Context) (v : α) :
    (pure a : M α) ctx = Outcome.ok c v ↔ c = ctx ∧ v = a := by
  show M.pure a ctx = Outcome.ok c v ↔ _
  unfold M.pure
  simp only [Outcome.ok.injEq]
  constructor
  · rintro ⟨h1, h2⟩; exact ⟨h1.symm, h2.symm⟩
  · rintro ⟨h1, h2⟩; exact ⟨h1.symm, h2.symm⟩

theorem register_ok_iff (eng : Engine) (r : Resource) (ctx c : Context) (u : Unit) :
    register eng r ctx = Outcome.ok c u ↔
      eng.rejects ctx.registered r = none ∧ c = ⟨ctx.registered ++ [r], ctx.debugLog⟩ := by
  unfold register
  cases h : eng.rejects ctx.registered r <;> simp [eq_comm]

theorem newSubnet_ok (eng : Engine) (name : String) (vpcId : Out) (gatewayId : Option Out)
    (az : SubnetAvailabilityZoneConfig) (component : String) (ctx c : Context) (v : Out)
    (h : newSubnet eng name vpcId gatewayId az component ctx = Outcome.ok c v) :
    v = Out.id Kind.subnet (name ++ "-subnet") ∧
      c = ⟨ctx.registered ++ subnetResources name vpcId gatewayId az component,
            ctx.debugLog⟩ := by
  unfold newSubnet at h
  simp only [bind_ok_iff, register_ok_iff, pure_ok_iff] at h
  obtain ⟨c1, _, ⟨_, rfl⟩, c2, _, ⟨_, rfl⟩, c3, _, ⟨_, rfl⟩, c4, _, ⟨_, rfl⟩, rfl, rfl⟩ :=
    h
  simp [subnetResources]

theorem natGatewayBlock_ok (eng : Engine) (name : String) (i : Nat)
    (az : SubnetAvailabilityZoneConfig) (sub : Out) (acc : Lists) (ctx c : Context)
    (v : Lists) (h : natGatewayBlock eng name i az sub acc ctx = Outcome.ok c v) :
    c = ⟨ctx.registered ++ natGatewayResources name i az sub, ctx.debugLog⟩ ∧
      v = { acc with gatewayIps := acc.gatewayIps ++
              (if az.CreateNatGateway = some true then
                [Out.id Kind.natGateway (name ++ "-natgateway-" ++ toString i)] else []) } := by
  unfold natGatewayBlock at h
  by_cases hn : az.CreateNatGateway = some true
  · simp only [hn, if_true, bind_ok_iff, register_ok_iff, pure_ok_iff] at h
    obtain ⟨c1, _, ⟨_, rfl⟩, c2, _, ⟨_, rfl⟩, rfl, rfl⟩ := h
    simp [natGatewayResources, hn]
  · simp only [hn, if_false, pure_ok_iff] at h
    obtain ⟨rfl, rfl⟩ := h
    simp [natGatewayResources, hn]

theorem debug_ok_iff (msg : String) (ctx c : Context) (u : Unit) :
    debug msg ctx = Outcome.ok c u ↔ c = ⟨ctx.registered, ctx.debugLog ++ [msg]⟩ := by
  unfold debug
  simp [eq_comm]

theorem zoneIteration_ok (eng : Engine) (name : String) (vpcId igwId : Out)
    (cPub cPriv cIso : Bool) (i : Nat) (az : SubnetAvailabilityZoneConfig) (acc : Lists)
    (ctx c : Context) (v : Lists)
    (h : zoneIteration eng name vpcId igwId cPub cPriv cIso i az acc ctx = Outcome.ok c v) :
    c = ⟨ctx.registered ++ zoneResources name vpcId igwId cPub cPriv cIso i az,
          ctx.debugLog ++ zoneDebug az⟩ ∧
      v = acc.append (zoneLists name cPub cPriv cIso i az) := by
  unfold zoneIteration at h
  simp only [bind_ok_iff] at h
  obtain ⟨c1, u, h1, c2, acc1, h2, c3, acc2, h3, h4⟩ := h
  have e1 : c1 = ⟨ctx.registered, ctx.debugLog ++ zoneDebug az⟩ := by
    by_cases hz : az.AvailabilityZone = none
    · simp only [hz, if_true, debug_ok_iff] at h1
      simp [h1, zoneDebug, hz]
    · simp only [hz, if_false, pure_ok_iff] at h1
      simp [h1.1, zoneDebug, hz]
  subst e1
  have e2 : c2.debugLog = ctx.debugLog ++ zoneDebug az ∧
      c2.registered = ctx.registered ++
        (if cPub && az.PublicSubnetCidr != none then
          subnetResources (name ++ "-public-" ++ toString i) vpcId (some igwId) az name ++
            natGatewayResources name i az
              (Out.id Kind.subnet (name ++ "-public-" ++ toString i ++ "-subnet"))
        else []) ∧
      acc1 = { acc with
        publicSubnets := acc.publicSubnets ++ (zoneLists name cPub cPriv cIso i az).publicSubnets
        gatewayIps := acc.gatewayIps ++ (zoneLists name cPub cPriv cIso i az).gatewayIps } := by
    by_cases hp : (cPub && az.PublicSubnetCidr != none) = true
    · simp only [hp, if_true, bind_ok_iff, pure_ok_iff] at h2
      obtain ⟨d1, sub, hs, d2, acc0, hn, rfl, rfl⟩ := h2
      obtain ⟨rfl, rfl⟩ := newSubnet_ok _ _ _ _ _ _ _ _ _ hs
      obtain ⟨rfl, rfl⟩ := natGatewayBlock_ok _ _ _ _ _ _ _ _ _ hn
      simp [zoneLists, hp]
    · simp only [hp, if_false, pure_ok_iff] at h2
      obtain ⟨rfl, rfl⟩ := h2
      simp [zoneLists, hp]
  obtain ⟨e2a, e2b, rfl⟩ := e2
  have e3 : c3.debugLog = c2.debugLog ∧
      c3.registered = c2.registered ++
        (if cPriv && az.PrivateSubnetCidr != none then
          subnetResources (name ++ "-private-" ++ toString i) vpcId none az name
        else []) ∧
      acc2 = { acc with
        publicSubnets := acc.publicSubnets ++ (zoneLists name cPub cPriv cIso i az).publicSubnets
        gatewayIps := acc.gatewayIps ++ (zoneLists name cPub cPriv cIso i az).gatewayIps
        privateSubnets :=
          acc.privateSubnets ++ (zoneLists name cPub cPriv cIso i az).privateSubnets } := by
    by_cases hp : (cPriv && az.PrivateSubnetCidr != none) = true
    · simp only [hp, if_true, bind_ok_iff, pure_ok_iff] at h3
      obtain ⟨d1, sub, hs, rfl, rfl⟩ := h3
      obtain ⟨rfl, rfl⟩ := newSubnet_ok _ _ _ _ _ _ _ _ _ hs
      simp [zoneLists, hp]
    · simp only [hp, if_false, pure_ok_iff] at h3
      obtain ⟨rfl, rfl⟩ := h3
      simp [zoneLists, hp]
  obtain ⟨e3a, e3b, rfl⟩ := e3
  have e4 : c.debugLog = c3.debugLog ∧
      c.registered = c3.registered ++
        (if cIso && az.IsolatedSubnetCidr != none then
          subnetResources (name ++ "-isolated-" ++ toString i) vpcId none az name
        else []) ∧
      v = acc.append (zoneLists name cPub cPriv cIso i az) := by
    by_cases hp : (cIso && az.IsolatedSubnetCidr != none) = true
    · simp only [hp, if_true, bind_ok_iff, pure_ok_iff] at h4
      obtain ⟨d1, sub, hs, rfl, rfl⟩ := h4
      obtain ⟨rfl, rfl⟩ := newSubnet_ok _ _ _ _ _ _ _ _ _ hs
      simp [zoneLists, hp, Lists.append]
    · simp only [hp, if_false, pure_ok_iff] at h4
      obtain ⟨rfl, rfl⟩ := h4
      simp [zoneLists, hp, Lists.append]
  obtain ⟨e4a, e4b, rfl⟩ := e4
  refine ⟨?_, rfl⟩
  cases c with
  | mk reg dbg =>
    simp only at e4a e4b
    simp only [Context.mk.injEq]
    refine ⟨?_, ?_⟩
    · rw [e4b, e3b, e2b]
      simp [zoneResources, List.append_assoc]
    · rw [e4a, e3a, e2a]

theorem zoneLoop_ok (eng : Engine) (name : String) (vpcId igwId : Out)
    (cPub cPriv cIso : Bool) (zones : List SubnetAvailabilityZoneConfig) :
    ∀ (i : Nat) (acc : Lists) (ctx c : Context) (v : Lists),
      zoneLoop eng name vpcId igwId cPub cPriv cIso i zones acc ctx = Outcome.ok c v →
      c = ⟨ctx.registered ++ (zones.enumFrom i).flatMap
              (fun p => zoneResources name vpcId igwId cPub cPriv cIso p.1 p.2),
            ctx.debugLog ++ zones.flatMap zoneDebug⟩ ∧
        v = acc.append
          { publicSubnets := (zones.enumFrom i).flatMap
              (fun p => (zoneLists name cPub cPriv cIso p.1 p.2).publicSubnets),
            privateSubnets := (zones.enumFrom i).flatMap
              (fun p => (zoneLists name cPub cPriv cIso p.1 p.2).privateSubnets),
            isolatedSubnets := (zones.enumFrom i).flatMap
              (fun p => (zoneLists name cPub cPriv cIso p.1 p.2).isolatedSubnets),
            gatewayIps := (zones.enumFrom i).flatMap
              (fun p => (zoneLists name cPub cPriv cIso p.1 p.2).gatewayIps) } := by
  induction zones with
  | nil =>
    intro i acc ctx c v h
    unfold zoneLoop at h
    simp only [pure_ok_iff] at h
    obtain ⟨rfl, rfl⟩ := h
    simp [Lists.append]
  | cons az rest ih =>
    intro i acc ctx c v h
    unfold zoneLoop at h
    simp only [bind_ok_iff] at h
    obtain ⟨c1, acc1, h1, h2⟩ := h
    obtain ⟨rfl, rfl⟩ := zoneIteration_ok _ _ _ _ _ _ _ _ _ _ _ _ _ h1
    obtain ⟨rfl, rfl⟩ := ih _ _ _ _ _ h2
    simp [Lists.append, List.enumFrom_cons, List.flatMap_cons, List.append_assoc]

theorem deref_ok_iff (p : Option Bool) (ctx c : Context) (v : Bool) :
    deref p ctx = Outcome.ok c v ↔ p = some v ∧ c = ctx := by
  unfold deref
  cases p with
  | none => simp
  | some b =>
    simp only [Outcome.ok.injEq, Option.some.injEq]
    constructor
    · rintro ⟨h1, h2⟩; exact ⟨h2, h1.symm⟩
    · rintro ⟨h1, h2⟩; exact ⟨h2.symm, h1⟩

theorem flag_ok (p q : Option Bool) (ctx c : Context) (v : Bool)
    (h : (if (p != none) = true then deref q else pure true) ctx = Outcome.ok c v) :
    c = ctx ∧ ((p = none ∧ v = true) ∨ (p ≠ none ∧ q = some v)) := by
  cases p with
  | none =>
    simp only [bne_self_eq_false, Bool.false_eq_true, if_false, pure_ok_iff] at h
    exact ⟨h.1, Or.inl ⟨rfl, h.2⟩⟩
  | some b =>
    have hb : (some b != none) = true := by simp
    simp only [hb, if_true, deref_ok_iff] at h
    exact ⟨h.2, Or.inr ⟨by simp, h.1⟩⟩

theorem flatMap_ite_singleton {α β : Type} (p : α → Bool) (f : α → β) (l : List α) :
    l.flatMap (fun x => if p x = true then [f x] else []) = (l.filter p).map f := by
  induction l with
  | nil => rfl
  | cons a l ih =>
    rw [List.flatMap_cons, ih]
    by_cases h : p a = true <;> simp [h]

theorem NewPulubmiAwsVpc_ok (eng : Engine) (name : String) (args : Option PulumiAwsVpcArgs)
    (ctx c : Context) (comp : PulumiAwsVpc)
    (h : NewPulubmiAwsVpc eng name args ctx = Outcome.ok c comp) :
    (args.getD PulumiAwsVpcArgs.zero).CidrBlock ≠ none ∧
    c.registered = ctx.registered ++
      [ ⟨name, [], Args.component "pulumi-aws-vpc:index:AwsVpc"⟩,
        ⟨name ++ "-vpc", [ResourceOption.Parent name],
          Args.vpc (tenancyOf (args.getD PulumiAwsVpcArgs.zero))
            (args.getD PulumiAwsVpcArgs.zero).CidrBlock
            ((args.getD PulumiAwsVpcArgs.zero).EnableDnsSupport.getD true)
            ((args.getD PulumiAwsVpcArgs.zero).EnableDnsHostnames.getD true)⟩,
        ⟨name ++ "-igw", [ResourceOption.Parent name],
          Args.internetGateway (Out.id Kind.vpc (name ++ "-vpc"))⟩ ] ++
      (args.getD PulumiAwsVpcArgs.zero).SubnetAvailabilityZoneConfig.enum.flatMap
        (fun p => zoneResources name (Out.id Kind.vpc (name ++ "-vpc"))
          (Out.id Kind.internetGateway (name ++ "-igw"))
          (publicSubnetsOn (args.getD PulumiAwsVpcArgs.zero))
          (privateSubnetsOn (args.getD PulumiAwsVpcArgs.zero))
          (isolatedSubnetsOn (args.getD PulumiAwsVpcArgs.zero)) p.1 p.2) ∧
    c.debugLog = ctx.debugLog ++
      (args.getD PulumiAwsVpcArgs.zero).SubnetAvailabilityZoneConfig.flatMap zoneDebug ∧
    comp =
      { VpcId := some (Out.id Kind.vpc (name ++ "-vpc")),
        PublicSubnetIDs := some
          ((args.getD PulumiAwsVpcArgs.zero).SubnetAvailabilityZoneConfig.enum.flatMap
            (fun p => (zoneLists name (publicSubnetsOn (args.getD PulumiAwsVpcArgs.zero))
              (privateSubnetsOn (args.getD PulumiAwsVpcArgs.zero))
              (isolatedSubnetsOn (args.getD PulumiAwsVpcArgs.zero)) p.1 p.2).publicSubnets)),
        PrivateSubnetIDs := some
          ((args.getD PulumiAwsVpcArgs.zero).SubnetAvailabilityZoneConfig.enum.flatMap
            (fun p => (zoneLists name (publicSubnetsOn (args.getD PulumiAwsVpcArgs.zero))
              (privateSubnetsOn (args.getD PulumiAwsVpcArgs.zero))
              (isolatedSubnetsOn (args.getD PulumiAwsVpcArgs.zero)) p.1 p.2).privateSubnets)),
        IsolatedSubnetIds := some
          ((args.getD PulumiAwsVpcArgs.zero).SubnetAvailabilityZoneConfig.enum.flatMap
            (fun p => (zoneLists name (publicSubnetsOn (args.getD PulumiAwsVpcArgs.zero))
              (privateSubnetsOn (args.getD PulumiAwsVpcArgs.zero))
              (isolatedSubnetsOn (args.getD PulumiAwsVpcArgs.zero)) p.1 p.2).isolatedSubnets)),
        NatGatewayIds := none } := by
  unfold NewPulubmiAwsVpc at h
  generalize args.getD PulumiAwsVpcArgs.zero = a at h ⊢
  by_cases hc : a.CidrBlock = none
  · simp [hc, M.fail] at h
  · simp only [hc, if_false, bind_ok_iff, register_ok_iff, pure_ok_iff] at h
    obtain ⟨c1, _, ⟨_, rfl⟩, c2, dnsH, hH, c3, dnsS, hS, c4, _, ⟨_, rfl⟩,
      c5, _, ⟨_, rfl⟩, c6, cPub, hPub, c7, cPriv, hPriv, c8, cIso, hIso, c9, lists, hL, rfl, rfl⟩ := h
    obtain ⟨rfl, kH⟩ := flag_ok _ _ _ _ _ hH
    clear hH
    obtain ⟨rfl, kS⟩ := flag_ok _ _ _ _ _ hS
    clear hS
    obtain ⟨rfl, kPub⟩ := flag_ok _ _ _ _ _ hPub
    clear hPub
    obtain ⟨rfl, kPriv⟩ := flag_ok _ _ _ _ _ hPriv
    clear hPriv
    obtain ⟨rfl, kIso⟩ := flag_ok _ _ _ _ _ hIso
    clear hIso
    obtain ⟨rfl, rfl⟩ := zoneLoop_ok _ _ _ _ _ _ _ _ _ _ _ _ _ hL
    have eH : a.EnableDnsHostnames.getD true = dnsH := by
      rcases kH with ⟨h1, h2⟩ | ⟨_, h2⟩ <;> simp [*]
    have eS : a.EnableDnsSupport.getD true = dnsS := by
      rcases kS with ⟨h1, h2⟩ | ⟨_, h2⟩ <;> simp [*]
    have ePub : publicSubnetsOn a = cPub := by
      unfold publicSubnetsOn
      rcases kPub with ⟨h1, h2⟩ | ⟨h1, h2⟩
      · simp [h1, h2]
      · cases hp : a.CreatePrivateSubnets with
        | none => exact absurd hp h1
        | some b => cases cPub <;> simp [h2]
    have ePriv : privateSubnetsOn a = cPriv := by
      unfold privateSubnetsOn
      rcases kPriv with ⟨h1, h2⟩ | ⟨_, h2⟩ <;> simp [*]
    have eIso : isolatedSubnetsOn a = cIso := by
      unfold isolatedSubnetsOn
      rcases kIso with ⟨h1, h2⟩ | ⟨_, h2⟩ <;> simp [*]
    subst eH eS ePub ePriv eIso
    refine ⟨hc, ?_, ?_, ?_⟩
    · simp [tenancyOf, List.enum, List.append_assoc]
    · simp
    · simp [PulumiAwsVpc.zero, Lists.append, List.enum]

/-! ## Output lists follow the zone order -/

/-- Claim C8. When the composition succeeds, each of `publicSubnetIds`,
`privateSubnetIds` and `isolatedSubnetIds` holds one identifier per zone entry for
which the loop creates a subnet of that kind (the kind is switched on and the
entry has a CIDR of that kind), namely the identifier of the subnet named after
the zone's index, in the order of the input zone list; and every listed
identifier is the identifier of a subnet among the described resources. -/
theorem subnet_ids_preserve_zone_order (eng : Engine) (name : String)
    (args : Option PulumiAwsVpcArgs) (ctx c : Context) (comp : PulumiAwsVpc)
    (h : NewPulubmiAwsVpc eng name args ctx = Outcome.ok c comp) :
    ∃ a, args = some a ∧
      comp.PublicSubnetIDs = some
        ((a.SubnetAvailabilityZoneConfig.enum.filter
            (fun p => publicSubnetsOn a && p.2.PublicSubnetCidr != none)).map
          (fun p => Out.id Kind.subnet (name ++ "-public-" ++ toString p.1 ++ "-subnet"))) ∧
      comp.PrivateSubnetIDs = some
        ((a.SubnetAvailabilityZoneConfig.enum.filter
            (fun p => privateSubnetsOn a && p.2.PrivateSubnetCidr != none)).map
          (fun p => Out.id Kind.subnet (name ++ "-private-" ++ toString p.1 ++ "-subnet"))) ∧
      comp.IsolatedSubnetIds = some
        ((a.SubnetAvailabilityZoneConfig.enum.filter
            (fun p => isolatedSubnetsOn a && p.2.IsolatedSubnetCidr != none)).map
          (fun p => Out.id Kind.subnet (name ++ "-isolated-" ++ toString p.1 ++ "-subnet"))) ∧
      ∀ ids, (comp.PublicSubnetIDs = some ids ∨ comp.PrivateSubnetIDs = some ids ∨
          comp.IsolatedSubnetIds = some ids) →
        ∀ o ∈ ids, ∃ r ∈ c.registered, o = Out.id Kind.subnet r.name ∧
          ∃ vpcId zone cidr, r.args = Args.subnet vpcId zone cidr := by
  obtain ⟨hc, hreg, _, hcomp⟩ := NewPulubmiAwsVpc_ok eng name args ctx c comp h
  cases args with
  | none => exact absurd rfl hc
  | some a =>
    simp only [Option.getD_some] at hreg hcomp
    have e1 : comp.PublicSubnetIDs = some
        ((a.SubnetAvailabilityZoneConfig.enum.filter
            (fun p => publicSubnetsOn a && p.2.PublicSubnetCidr != none)).map
          (fun p => Out.id Kind.subnet (name ++ "-public-" ++ toString p.1 ++ "-subnet"))) := by
      rw [hcomp]
      simp only [zoneLists]
      exact congrArg some (flatMap_ite_singleton _ _ _)
    have e2 : comp.PrivateSubnetIDs = some
        ((a.SubnetAvailabilityZoneConfig.enum.filter
            (fun p => privateSubnetsOn a && p.2.PrivateSubnetCidr != none)).map
          (fun p => Out.id Kind.subnet (name ++ "-private-" ++ toString p.1 ++ "-subnet"))) := by
      rw [hcomp]
      simp only [zoneLists]
      exact congrArg some (flatMap_ite_singleton _ _ _)
    have e3 : comp.IsolatedSubnetIds = some
        ((a.SubnetAvailabilityZoneConfig.enum.filter
            (fun p => isolatedSubnetsOn a && p.2.IsolatedSubnetCidr != none)).map
          (fun p => Out.id Kind.subnet (name ++ "-isolated-" ++ toString p.1 ++ "-subnet"))) := by
      rw [hcomp]
      simp only [zoneLists]
      exact congrArg some (flatMap_ite_singleton _ _ _)
    refine ⟨a, rfl, e1, e2, e3, ?_⟩
    intro ids hids o ho
    have key : ∀ (kind : String) (gw : Option Out) (p : Nat × SubnetAvailabilityZoneConfig),
        p ∈ a.SubnetAvailabilityZoneConfig.enum →
        (∀ r ∈ subnetResources (name ++ kind ++ toString p.1)
            (Out.id Kind.vpc (name ++ "-vpc")) gw p.2 name,
          r ∈ zoneResources name (Out.id Kind.vpc (name ++ "-vpc"))
            (Out.id Kind.internetGateway (name ++ "-igw")) (publicSubnetsOn a)
            (privateSubnetsOn a) (isolatedSubnetsOn a) p.1 p.2) →
        ∃ r ∈ c.registered,
          Out.id Kind.subnet (name ++ kind ++ toString p.1 ++ "-subnet") =
            Out.id Kind.subnet r.name ∧
          ∃ vpcId zone cidr, r.args = Args.subnet vpcId zone cidr := by
      intro kind gw p hp hsub
      refine ⟨⟨name ++ kind ++ toString p.1 ++ "-subnet", [ResourceOption.Parent name],
        Args.subnet (Out.id Kind.vpc (name ++ "-vpc")) p.2.AvailabilityZone
          p.2.PublicSubnetCidr⟩, ?_, rfl, _, _, _, rfl⟩
      rw [hreg]
      refine List.mem_append_right _ (List.mem_flatMap.mpr ⟨p, hp, hsub _ ?_⟩)
      simp [subnetResources]
    rcases hids with hids | hids | hids
    · rw [e1] at hids
      cases hids
      obtain ⟨p, hp, rfl⟩ := List.mem_map.mp ho
      obtain ⟨hp1, hp2⟩ := List.mem_filter.mp hp
      refine key "-public-" (some (Out.id Kind.internetGateway (name ++ "-igw"))) p hp1 ?_
      intro r hr
      simp only [zoneResources, hp2, if_true]
      exact List.mem_append_left _ (List.mem_append_left _ (List.mem_append_left _ hr))
    · rw [e2] at hids
      cases hids
      obtain ⟨p, hp, rfl⟩ := List.mem_map.mp ho
      obtain ⟨hp1, hp2⟩ := List.mem_filter.mp hp
      refine key "-private-" none p hp1 ?_
      intro r hr
      simp only [zoneResources, hp2, if_true]
      exact List.mem_append_left _ (List.mem_append_right _ hr)
    · rw [e3] at hids
      cases hids
      obtain ⟨p, hp, rfl⟩ := List.mem_map.mp ho
      obtain ⟨hp1, hp2⟩ := List.mem_filter.mp hp
      refine key "-isolated-" none p hp1 ?_
      intro r hr
      simp only [zoneResources, hp2, if_true]
      exact List.mem_append_right _ hr

/-- The composition of `twoZones` succeeds, and claim C8 read at it: the public list is
that of zones 0 and 1 in this order, the private list that of zone 0, the isolated
list that of zone 1. -/
theorem subnet_ids_preserve_zone_order_witness :
    NewPulubmiAwsVpc acceptAll "net" (some twoZones) Context.empty =
        Outcome.ok twoZonesContext twoZonesComponent ∧
    ∃ a, some twoZones = some a ∧
      twoZonesComponent.PublicSubnetIDs = some
        ((a.SubnetAvailabilityZoneConfig.enum.filter
            (fun p => publicSubnetsOn a && p.2.PublicSubnetCidr != none)).map
          (fun p => Out.id Kind.subnet ("net" ++ "-public-" ++ toString p.1 ++ "-subnet"))) ∧
      twoZonesComponent.PrivateSubnetIDs = some
        ((a.SubnetAvailabilityZoneConfig.enum.filter
            (fun p => privateSubnetsOn a && p.2.PrivateSubnetCidr != none)).map
          (fun p => Out.id Kind.subnet ("net" ++ "-private-" ++ toString p.1 ++ "-subnet"))) ∧
      twoZonesComponent.IsolatedSubnetIds = some
        ((a.SubnetAvailabilityZoneConfig.enum.filter
            (fun p => isolatedSubnetsOn a && p.2.IsolatedSubnetCidr != none)).map
          (fun p => Out.id Kind.subnet ("net" ++ "-isolated-" ++ toString p.1 ++ "-subnet"))) ∧
      ∀ ids, (twoZonesComponent.PublicSubnetIDs = some ids ∨
          twoZonesComponent.PrivateSubnetIDs = some ids ∨
          twoZonesComponent.IsolatedSubnetIds = some ids) →
        ∀ o ∈ ids, ∃ r ∈ twoZonesContext.registered, o = Out.id Kind.subnet r.name ∧
          ∃ vpcId zone cidr, r.args = Args.subnet vpcId zone cidr :=
  ⟨by decide!,
    subnet_ids_preserve_zone_order acceptAll "net" (some twoZones) Context.empty
      twoZonesContext twoZonesComponent (by decide!)⟩

/-! ## The public branch -/

/-- Claim C9. When the composition succeeds, the described resources are the
component, the VPC and the internet gateway followed, zone by zone in input
order, by what each zone contributes; and a zone in which a public subnet is
created (public subnets switched on, public CIDR present) contributes for it
exactly: one subnet, one route table, one route with destination `0.0.0.0/0`
whose gateway is the internet gateway's identifier, one association of that route
table with that subnet, and then an elastic IP and a NAT gateway (with the
public subnet's identifier as `SubnetId` and the elastic IP's allocation id as
`AllocationId`) exactly when the zone's `createNatGateway` is set and true, and
nothing for a NAT gateway otherwise. The resources of the zone's private and
isolated branches follow. -/
theorem public_zone_resources (eng : Engine) (name : String)
    (args : Option PulumiAwsVpcArgs) (ctx c : Context) (comp : PulumiAwsVpc)
    (h : NewPulubmiAwsVpc eng name args ctx = Outcome.ok c comp) :
    ∃ a, args = some a ∧
      c.registered = ctx.registered ++
        [ ⟨name, [], Args.component "pulumi-aws-vpc:index:AwsVpc"⟩,
          ⟨name ++ "-vpc", [ResourceOption.Parent name],
            Args.vpc (tenancyOf a) a.CidrBlock (a.EnableDnsSupport.getD true)
              (a.EnableDnsHostnames.getD true)⟩,
          ⟨name ++ "-igw", [ResourceOption.Parent name],
            Args.internetGateway (Out.id Kind.vpc (name ++ "-vpc"))⟩ ] ++
        a.SubnetAvailabilityZoneConfig.enum.flatMap (fun p =>
          (if publicSubnetsOn a && p.2.PublicSubnetCidr != none then
            [ ⟨name ++ "-public-" ++ toString p.1 ++ "-subnet", [ResourceOption.Parent name],
                Args.subnet (Out.id Kind.vpc (name ++ "-vpc")) p.2.AvailabilityZone
                  p.2.PublicSubnetCidr⟩,
              ⟨"%s-rt" ++ (name ++ "-public-" ++ toString p.1), [ResourceOption.Parent name],
                Args.routeTable (Out.id Kind.vpc (name ++ "-vpc"))⟩,
              ⟨name ++ "-public-" ++ toString p.1 ++ "-route", [ResourceOption.Parent name],
                Args.route
                  (Out.id Kind.routeTable ("%s-rt" ++ (name ++ "-public-" ++ toString p.1)))
                  (Out.lit "0.0.0.0/0")
                  (some (Out.id Kind.internetGateway (name ++ "-igw")))⟩,
              ⟨name ++ "-public-" ++ toString p.1 ++ "-rt-assoc", [ResourceOption.Parent name],
                Args.routeTableAssociation
                  (Out.id Kind.routeTable ("%s-rt" ++ (name ++ "-public-" ++ toString p.1)))
                  (Out.id Kind.subnet (name ++ "-public-" ++ toString p.1 ++ "-subnet"))⟩ ] ++
            (if p.2.CreateNatGateway = some true then
              [ ⟨name ++ "-eip-" ++ toString p.1, [ResourceOption.Parent name], Args.eip true⟩,
                ⟨name ++ "-natgateway-" ++ toString p.1, [ResourceOption.Parent name],
                  Args.natGateway (Out.allocationId (name ++ "-eip-" ++ toString p.1))
                    (Out.id Kind.subnet (name ++ "-public-" ++ toString p.1 ++ "-subnet"))⟩ ]
            else [])
          else []) ++
          privateIsolatedResources name (Out.id Kind.vpc (name ++ "-vpc"))
            (privateSubnetsOn a) (isolatedSubnetsOn a) p.1 p.2) := by
  obtain ⟨hc, hreg, _, _⟩ := NewPulubmiAwsVpc_ok eng name args ctx c comp h
  cases args with
  | none => exact absurd rfl hc
  | some a =>
    refine ⟨a, rfl, ?_⟩
    simp only [Option.getD_some] at hreg
    rw [hreg]
    congr 1
    refine List.flatMap_congr ?_
    intro p _
    simp only [zoneResources, privateIsolatedResources, subnetResources, natGatewayResources,
      List.append_assoc]

/-- The composition of `twoZones` succeeds, and claim C9 read at it: zone 0 has its
public subnet followed by an elastic IP and a NAT gateway, zone 1 its public subnet
alone. -/
theorem public_zone_resources_witness :
    NewPulubmiAwsVpc acceptAll "net" (some twoZones) Context.empty =
        Outcome.ok twoZonesContext twoZonesComponent ∧
    ∃ a, some twoZones = some a ∧
      twoZonesContext.registered = Context.empty.registered ++
        [ ⟨"net", [], Args.component "pulumi-aws-vpc:index:AwsVpc"⟩,
          ⟨"net" ++ "-vpc", [ResourceOption.Parent "net"],
            Args.vpc (tenancyOf a) a.CidrBlock (a.EnableDnsSupport.getD true)
              (a.EnableDnsHostnames.getD true)⟩,
          ⟨"net" ++ "-igw", [ResourceOption.Parent "net"],
            Args.internetGateway (Out.id Kind.vpc ("net" ++ "-vpc"))⟩ ] ++
        a.SubnetAvailabilityZoneConfig.enum.flatMap (fun p =>
          (if publicSubnetsOn a && p.2.PublicSubnetCidr != none then
            [ ⟨"net" ++ "-public-" ++ toString p.1 ++ "-subnet", [ResourceOption.Parent "net"],
                Args.subnet (Out.id Kind.vpc ("net" ++ "-vpc")) p.2.AvailabilityZone
                  p.2.PublicSubnetCidr⟩,
              ⟨"%s-rt" ++ ("net" ++ "-public-" ++ toString p.1), [ResourceOption.Parent "net"],
                Args.routeTable (Out.id Kind.vpc ("net" ++ "-vpc"))⟩,
              ⟨"net" ++ "-public-" ++ toString p.1 ++ "-route", [ResourceOption.Parent "net"],
                Args.route
                  (Out.id Kind.routeTable ("%s-rt" ++ ("net" ++ "-public-" ++ toString p.1)))
                  (Out.lit "0.0.0.0/0")
                  (some (Out.id Kind.internetGateway ("net" ++ "-igw")))⟩,
              ⟨"net" ++ "-public-" ++ toString p.1 ++ "-rt-assoc", [ResourceOption.Parent "net"],
                Args.routeTableAssociation
                  (Out.id Kind.routeTable ("%s-rt" ++ ("net" ++ "-public-" ++ toString p.1)))
                  (Out.id Kind.subnet ("net" ++ "-public-" ++ toString p.1 ++ "-subnet"))⟩ ] ++
            (if p.2.CreateNatGateway = some true then
              [ ⟨"net" ++ "-eip-" ++ toString p.1, [ResourceOption.Parent "net"],
                  Args.eip true⟩,
                ⟨"net" ++ "-natgateway-" ++ toString p.1, [ResourceOption.Parent "net"],
                  Args.natGateway (Out.allocationId ("net" ++ "-eip-" ++ toString p.1))
                    (Out.id Kind.subnet ("net" ++ "-public-" ++ toString p.1 ++ "-subnet"))⟩ ]
            else [])
          else []) ++
          privateIsolatedResources "net" (Out.id Kind.vpc ("net" ++ "-vpc"))
            (privateSubnetsOn a) (isolatedSubnetsOn a) p.1 p.2) :=
  ⟨by decide!,
    public_zone_resources acceptAll "net" (some twoZones) Context.empty
      twoZonesContext twoZonesComponent (by decide!)⟩

/-! ## The CIDR check -/

/-- Claim C1, the part that fails: a configuration whose `cidrBlock` is the empty
string passes the check. With every registration accepted the composition returns
a component, not an error, after describing the component, a VPC with CIDR block
`""` and an internet gateway. -/
theorem empty_cidr_is_accepted :
    NewPulubmiAwsVpc acceptAll "net" (some emptyCidr) Context.empty =
    Outcome.ok
      ⟨[ ⟨"net", [], Args.component "pulumi-aws-vpc:index:AwsVpc"⟩,
        ⟨"net-vpc", [ResourceOption.Parent "net"],
          Args.vpc (Out.lit "default") (some (Out.lit "")) true true⟩,
        ⟨"net-igw", [ResourceOption.Parent "net"],
          Args.internetGateway (Out.id Kind.vpc "net-vpc")⟩ ],
        []⟩
      { VpcId := some (Out.id Kind.vpc "net-vpc"),
        PrivateSubnetIDs := some [],
        PublicSubnetIDs := some [],
        IsolatedSubnetIds := some [],
        NatGatewayIds := none } ∧
    NewPulubmiAwsVpc acceptAll "net" (some emptyCidr) Context.empty ≠
      Outcome.fail Context.empty
        (Err.invalidInput "cidr block must be a valid non-nil value") := by
  have h : NewPulubmiAwsVpc acceptAll "net" (some emptyCidr) Context.empty =
    Outcome.ok
      ⟨[ ⟨"net", [], Args.component "pulumi-aws-vpc:index:AwsVpc"⟩,
        ⟨"net-vpc", [ResourceOption.Parent "net"],
          Args.vpc (Out.lit "default") (some (Out.lit "")) true true⟩,
        ⟨"net-igw", [ResourceOption.Parent "net"],
          Args.internetGateway (Out.id Kind.vpc "net-vpc")⟩ ],
        []⟩
      { VpcId := some (Out.id Kind.vpc "net-vpc"),
        PrivateSubnetIDs := some [],
        PublicSubnetIDs := some [],
        IsolatedSubnetIds := some [],
        NatGatewayIds := none } := by decide!
  refine ⟨h, ?_⟩
  intro he
  rw [h] at he
  cases he

/-- Claim C1, amended. For every configuration whose `cidrBlock` is nil (a nil
`args` included), under every engine and from every context, `NewPulubmiAwsVpc`
returns the invalid-input error and leaves the context as it was: nothing is
registered and nothing is logged before the error. -/
theorem nil_cidr_is_invalid_input (eng : Engine) (name : String)
    (args : Option PulumiAwsVpcArgs) (ctx : Context)
    (h : (args.getD PulumiAwsVpcArgs.zero).CidrBlock = none) :
    NewPulubmiAwsVpc eng name args ctx =
      Outcome.fail ctx (Err.invalidInput "cidr block must be a valid non-nil value") := by
  unfold NewPulubmiAwsVpc
  simp only [h, if_true]
  rfl

/-- The amended claim C1 at `twoZones` with its `cidrBlock` removed. -/
theorem nil_cidr_is_invalid_input_witness :
    ((some { twoZones with CidrBlock := none }).getD PulumiAwsVpcArgs.zero).CidrBlock = none ∧
    NewPulubmiAwsVpc acceptAll "net" (some { twoZones with CidrBlock := none }) Context.empty =
      Outcome.fail Context.empty
        (Err.invalidInput "cidr block must be a valid non-nil value") :=
  ⟨rfl, nil_cidr_is_invalid_input acceptAll "net" (some { twoZones with CidrBlock := none })
    Context.empty rfl⟩

/-! ## What the program does where a claim fails -/

/-- Claim C2 at `natZone`: the zone has a public CIDR, `createNatGateway` true and a
private CIDR; the NAT gateway `net-natgateway-0` is described, and the route of the
private subnet, `net-private-0-route`, has no gateway (`GatewayId` is nil), neither
the NAT gateway's identifier nor the internet gateway's. -/
theorem private_route_gateway_is_nil :
    NewPulubmiAwsVpc acceptAll "net" (some natZone) Context.empty =
    Outcome.ok
      ⟨[ ⟨"net", [], Args.component "pulumi-aws-vpc:index:AwsVpc"⟩,
        ⟨"net-vpc", [ResourceOption.Parent "net"],
          Args.vpc (Out.lit "default") (some (Out.lit "10.0.0.0/16")) true true⟩,
        ⟨"net-igw", [ResourceOption.Parent "net"],
          Args.internetGateway (Out.id Kind.vpc "net-vpc")⟩,
        ⟨"net-public-0-subnet", [ResourceOption.Parent "net"],
          Args.subnet (Out.id Kind.vpc "net-vpc") (some (Out.lit "us-east-1a"))
            (some (Out.lit "10.0.0.0/24"))⟩,
        ⟨"%s-rtnet-public-0", [ResourceOption.Parent "net"],
          Args.routeTable (Out.id Kind.vpc "net-vpc")⟩,
        ⟨"net-public-0-route", [ResourceOption.Parent "net"],
          Args.route (Out.id Kind.routeTable "%s-rtnet-public-0")
            (Out.lit "0.0.0.0/0") (some (Out.id Kind.internetGateway "net-igw"))⟩,
        ⟨"net-public-0-rt-assoc", [ResourceOption.Parent "net"],
          Args.routeTableAssociation (Out.id Kind.routeTable "%s-rtnet-public-0")
            (Out.id Kind.subnet "net-public-0-subnet")⟩,
        ⟨"net-eip-0", [ResourceOption.Parent "net"], Args.eip true⟩,
        ⟨"net-natgateway-0", [ResourceOption.Parent "net"],
          Args.natGateway (Out.allocationId "net-eip-0")
            (Out.id Kind.subnet "net-public-0-subnet")⟩,
        ⟨"net-private-0-subnet", [ResourceOption.Parent "net"],
          Args.subnet (Out.id Kind.vpc "net-vpc") (some (Out.lit "us-east-1a"))
            (some (Out.lit "10.0.0.0/24"))⟩,
        ⟨"%s-rtnet-private-0", [ResourceOption.Parent "net"],
          Args.routeTable (Out.id Kind.vpc "net-vpc")⟩,
        ⟨"net-private-0-route", [ResourceOption.Parent "net"],
          Args.route (Out.id Kind.routeTable "%s-rtnet-private-0")
            (Out.lit "0.0.0.0/0") none⟩,
        ⟨"net-private-0-rt-assoc", [ResourceOption.Parent "net"],
          Args.routeTableAssociation (Out.id Kind.routeTable "%s-rtnet-private-0")
            (Out.id Kind.subnet "net-private-0-subnet")⟩ ],
        []⟩
      { VpcId := some (Out.id Kind.vpc "net-vpc"),
        PrivateSubnetIDs := some [Out.id Kind.subnet "net-private-0-subnet"],
        PublicSubnetIDs := some [Out.id Kind.subnet "net-public-0-subnet"],
        IsolatedSubnetIds := some [],
        NatGatewayIds := none } := by decide!

/-- Claim C3 at `isolatedZone`: for the zone's isolated subnet a subnet, a route
table and an association are described, and with them the route
`net-isolated-0-route` with destination `0.0.0.0/0` and no gateway. -/
theorem isolated_subnet_has_default_route :
    NewPulubmiAwsVpc acceptAll "net" (some isolatedZone) Context.empty =
    Outcome.ok
      ⟨[ ⟨"net", [], Args.component "pulumi-aws-vpc:index:AwsVpc"⟩,
        ⟨"net-vpc", [ResourceOption.Parent "net"],
          Args.vpc (Out.lit "default") (some (Out.lit "10.0.0.0/16")) true true⟩,
        ⟨"net-igw", [ResourceOption.Parent "net"],
          Args.internetGateway (Out.id Kind.vpc "net-vpc")⟩,
        ⟨"net-isolated-0-subnet", [ResourceOption.Parent "net"],
          Args.subnet (Out.id Kind.vpc "net-vpc") (some (Out.lit "us-east-1a"))
            none⟩,
        ⟨"%s-rtnet-isolated-0", [ResourceOption.Parent "net"],
          Args.routeTable (Out.id Kind.vpc "net-vpc")⟩,
        ⟨"net-isolated-0-route", [ResourceOption.Parent "net"],
          Args.route (Out.id Kind.routeTable "%s-rtnet-isolated-0")
            (Out.lit "0.0.0.0/0") none⟩,
        ⟨"net-isolated-0-rt-assoc", [ResourceOption.Parent "net"],
          Args.routeTableAssociation (Out.id Kind.routeTable "%s-rtnet-isolated-0")
            (Out.id Kind.subnet "net-isolated-0-subnet")⟩ ],
        []⟩
      { VpcId := some (Out.id Kind.vpc "net-vpc"),
        PrivateSubnetIDs := some [],
        PublicSubnetIDs := some [],
        IsolatedSubnetIds := some [Out.id Kind.subnet "net-isolated-0-subnet"],
        NatGatewayIds := none } := by decide!

/-- Claim C4 at `privateFlagOnly` and at `publicIsolatedOff`. With
`createPrivateSubnets` set and `createPublicSubnets` unset the program panics on a
nil pointer dereference, after the component, the VPC and the internet gateway
are described. With `createPublicSubnets` set to false and `createPrivateSubnets`
unset the public subnet of the zone is described all the same (the supplied
value is not read), while `createIsolatedSubnets`, set to false, is obeyed. -/
theorem public_flag_read_under_private_test :
    NewPulubmiAwsVpc acceptAll "net" (some privateFlagOnly) Context.empty =
    Outcome.panic
      ⟨[ ⟨"net", [], Args.component "pulumi-aws-vpc:index:AwsVpc"⟩,
        ⟨"net-vpc", [ResourceOption.Parent "net"],
          Args.vpc (Out.lit "default") (some (Out.lit "10.0.0.0/16")) true true⟩,
        ⟨"net-igw", [ResourceOption.Parent "net"],
          Args.internetGateway (Out.id Kind.vpc "net-vpc")⟩ ],
        []⟩
      "invalid memory address or nil pointer dereference" ∧
    NewPulubmiAwsVpc acceptAll "net" (some publicIsolatedOff) Context.empty =
    Outcome.ok
      ⟨[ ⟨"net", [], Args.component "pulumi-aws-vpc:index:AwsVpc"⟩,
        ⟨"net-vpc", [ResourceOption.Parent "net"],
          Args.vpc (Out.lit "default") (some (Out.lit "10.0.0.0/16")) true true⟩,
        ⟨"net-igw", [ResourceOption.Parent "net"],
          Args.internetGateway (Out.id Kind.vpc "net-vpc")⟩,
        ⟨"net-public-0-subnet", [ResourceOption.Parent "net"],
          Args.subnet (Out.id Kind.vpc "net-vpc") (some (Out.lit "us-east-1a"))
            (some (Out.lit "10.0.0.0/24"))⟩,
        ⟨"%s-rtnet-public-0", [ResourceOption.Parent "net"],
          Args.routeTable (Out.id Kind.vpc "net-vpc")⟩,
        ⟨"net-public-0-route", [ResourceOption.Parent "net"],
          Args.route (Out.id Kind.routeTable "%s-rtnet-public-0")
            (Out.lit "0.0.0.0/0") (some (Out.id Kind.internetGateway "net-igw"))⟩,
        ⟨"net-public-0-rt-assoc", [ResourceOption.Parent "net"],
          Args.routeTableAssociation (Out.id Kind.routeTable "%s-rtnet-public-0")
            (Out.id Kind.subnet "net-public-0-subnet")⟩ ],
        []⟩
      { VpcId := some (Out.id Kind.vpc "net-vpc"),
        PrivateSubnetIDs := some [],
        PublicSubnetIDs := some [Out.id Kind.subnet "net-public-0-subnet"],
        IsolatedSubnetIds := some [],
        NatGatewayIds := none } := by
  constructor <;> decide!

/-- Claim C5 at `publicOff`: `createPublicSubnets` is explicitly false and the other
two flags are unset, and the public subnet `net-public-0-subnet` is described and
listed in `publicSubnetIds`. -/
theorem public_subnet_created_when_switched_off :
    NewPulubmiAwsVpc acceptAll "net" (some publicOff) Context.empty =
    Outcome.ok
      ⟨[ ⟨"net", [], Args.component "pulumi-aws-vpc:index:AwsVpc"⟩,
        ⟨"net-vpc", [ResourceOption.Parent "net"],
          Args.vpc (Out.lit "default") (some (Out.lit "10.0.0.0/16")) true true⟩,
        ⟨"net-igw", [ResourceOption.Parent "net"],
          Args.internetGateway (Out.id Kind.vpc "net-vpc")⟩,
        ⟨"net-public-0-subnet", [ResourceOption.Parent "net"],
          Args.subnet (Out.id Kind.vpc "net-vpc") (some (Out.lit "us-east-1a"))
            (some (Out.lit "10.0.0.0/24"))⟩,
        ⟨"%s-rtnet-public-0", [ResourceOption.Parent "net"],
          Args.routeTable (Out.id Kind.vpc "net-vpc")⟩,
        ⟨"net-public-0-route", [ResourceOption.Parent "net"],
          Args.route (Out.id Kind.routeTable "%s-rtnet-public-0")
            (Out.lit "0.0.0.0/0") (some (Out.id Kind.internetGateway "net-igw"))⟩,
        ⟨"net-public-0-rt-assoc", [ResourceOption.Parent "net"],
          Args.routeTableAssociation (Out.id Kind.routeTable "%s-rtnet-public-0")
            (Out.id Kind.subnet "net-public-0-subnet")⟩ ],
        []⟩
      { VpcId := some (Out.id Kind.vpc "net-vpc"),
        PrivateSubnetIDs := some [],
        PublicSubnetIDs := some [Out.id Kind.subnet "net-public-0-subnet"],
        IsolatedSubnetIds := some [],
        NatGatewayIds := none } := by decide!

/-- Claim C6 at `unnamedZone`: the entry has no availability zone; the diagnostic is
logged and the entry is processed all the same, a public subnet without
availability zone being described with its route table, route and association. -/
theorem zone_without_availability_zone_not_skipped :
    NewPulubmiAwsVpc acceptAll "net" (some unnamedZone) Context.empty =
    Outcome.ok
      ⟨[ ⟨"net", [], Args.component "pulumi-aws-vpc:index:AwsVpc"⟩,
        ⟨"net-vpc", [ResourceOption.Parent "net"],
          Args.vpc (Out.lit "default") (some (Out.lit "10.0.0.0/16")) true true⟩,
        ⟨"net-igw", [ResourceOption.Parent "net"],
          Args.internetGateway (Out.id Kind.vpc "net-vpc")⟩,
        ⟨"net-public-0-subnet", [ResourceOption.Parent "net"],
          Args.subnet (Out.id Kind.vpc "net-vpc") none
            (some (Out.lit "10.0.0.0/24"))⟩,
        ⟨"%s-rtnet-public-0", [ResourceOption.Parent "net"],
          Args.routeTable (Out.id Kind.vpc "net-vpc")⟩,
        ⟨"net-public-0-route", [ResourceOption.Parent "net"],
          Args.route (Out.id Kind.routeTable "%s-rtnet-public-0")
            (Out.lit "0.0.0.0/0") (some (Out.id Kind.internetGateway "net-igw"))⟩,
        ⟨"net-public-0-rt-assoc", [ResourceOption.Parent "net"],
          Args.routeTableAssociation (Out.id Kind.routeTable "%s-rtnet-public-0")
            (Out.id Kind.subnet "net-public-0-subnet")⟩ ],
        ["availability zone config is nil; no subnets created"]⟩
      { VpcId := some (Out.id Kind.vpc "net-vpc"),
        PrivateSubnetIDs := some [],
        PublicSubnetIDs := some [Out.id Kind.subnet "net-public-0-subnet"],
        IsolatedSubnetIds := some [],
        NatGatewayIds := none } := by decide!

/-- Claim C7 at `publicNatZone`: the composition succeeds and the NAT gateway
`net-natgateway-0` is described, and the `natGatewayIds` output of the returned
component is unset, not the list of that gateway's identifier. -/
theorem nat_gateway_ids_never_assigned :
    NewPulubmiAwsVpc acceptAll "net" (some publicNatZone) Context.empty =
    Outcome.ok
      ⟨[ ⟨"net", [], Args.component "pulumi-aws-vpc:index:AwsVpc"⟩,
        ⟨"net-vpc", [ResourceOption.Parent "net"],
          Args.vpc (Out.lit "default") (some (Out.lit "10.0.0.0/16")) true true⟩,
        ⟨"net-igw", [ResourceOption.Parent "net"],
          Args.internetGateway (Out.id Kind.vpc "net-vpc")⟩,
        ⟨"net-public-0-subnet", [ResourceOption.Parent "net"],
          Args.subnet (Out.id Kind.vpc "net-vpc") (some (Out.lit "us-east-1a"))
            (some (Out.lit "10.0.0.0/24"))⟩,
        ⟨"%s-rtnet-public-0", [ResourceOption.Parent "net"],
          Args.routeTable (Out.id Kind.vpc "net-vpc")⟩,
        ⟨"net-public-0-route", [ResourceOption.Parent "net"],
          Args.route (Out.id Kind.routeTable "%s-rtnet-public-0")
            (Out.lit "0.0.0.0/0") (some (Out.id Kind.internetGateway "net-igw"))⟩,
        ⟨"net-public-0-rt-assoc", [ResourceOption.Parent "net"],
          Args.routeTableAssociation (Out.id Kind.routeTable "%s-rtnet-public-0")
            (Out.id Kind.subnet "net-public-0-subnet")⟩,
        ⟨"net-eip-0", [ResourceOption.Parent "net"], Args.eip true⟩,
        ⟨"net-natgateway-0", [ResourceOption.Parent "net"],
          Args.natGateway (Out.allocationId "net-eip-0")
            (Out.id Kind.subnet "net-public-0-subnet")⟩ ],
        []⟩
      { VpcId := some (Out.id Kind.vpc "net-vpc"),
        PrivateSubnetIDs := some [],
        PublicSubnetIDs := some [Out.id Kind.subnet "net-public-0-subnet"],
        IsolatedSubnetIds := some [],
        NatGatewayIds := none } := by decide!

/-- Claim C10 at `threeKinds`: the zone's public, private and isolated CIDRs are
`10.0.0.0/24`, `10.0.1.0/24` and `10.0.3.0/24`, and the three subnets described
all carry the public one, `10.0.0.0/24`, as their `CidrBlock`. -/
theorem every_subnet_gets_public_cidr :
    NewPulubmiAwsVpc acceptAll "net" (some threeKinds) Context.empty =
    Outcome.ok
      ⟨[ ⟨"net", [], Args.component "pulumi-aws-vpc:index:AwsVpc"⟩,
        ⟨"net-vpc", [ResourceOption.Parent "net"],
          Args.vpc (Out.lit "default") (some (Out.lit "10.0.0.0/16")) true true⟩,
        ⟨"net-igw", [ResourceOption.Parent "net"],
          Args.internetGateway (Out.id Kind.vpc "net-vpc")⟩,
        ⟨"net-public-0-subnet", [ResourceOption.Parent "net"],
          Args.subnet (Out.id Kind.vpc "net-vpc") (some (Out.lit "us-east-1a"))
            (some (Out.lit "10.0.0.0/24"))⟩,
        ⟨"%s-rtnet-public-0", [ResourceOption.Parent "net"],
          Args.routeTable (Out.id Kind.vpc "net-vpc")⟩,
        ⟨"net-public-0-route", [ResourceOption.Parent "net"],
          Args.route (Out.id Kind.routeTable "%s-rtnet-public-0")
            (Out.lit "0.0.0.0/0") (some (Out.id Kind.internetGateway "net-igw"))⟩,
        ⟨"net-public-0-rt-assoc", [ResourceOption.Parent "net"],
          Args.routeTableAssociation (Out.id Kind.routeTable "%s-rtnet-public-0")
            (Out.id Kind.subnet "net-public-0-subnet")⟩,
        ⟨"net-private-0-subnet", [ResourceOption.Parent "net"],
          Args.subnet (Out.id Kind.vpc "net-vpc") (some (Out.lit "us-east-1a"))
            (some (Out.lit "10.0.0.0/24"))⟩,
        ⟨"%s-rtnet-private-0", [ResourceOption.Parent "net"],
          Args.routeTable (Out.id Kind.vpc "net-vpc")⟩,
        ⟨"net-private-0-route", [ResourceOption.Parent "net"],
          Args.route (Out.id Kind.routeTable "%s-rtnet-private-0")
            (Out.lit "0.0.0.0/0") none⟩,
        ⟨"net-private-0-rt-assoc", [ResourceOption.Parent "net"],
          Args.routeTableAssociation (Out.id Kind.routeTable "%s-rtnet-private-0")
            (Out.id Kind.subnet "net-private-0-subnet")⟩,
        ⟨"net-isolated-0-subnet", [ResourceOption.Parent "net"],
          Args.subnet (Out.id Kind.vpc "net-vpc") (some (Out.lit "us-east-1a"))
            (some (Out.lit "10.0.0.0/24"))⟩,
        ⟨"%s-rtnet-isolated-0", [ResourceOption.Parent "net"],
          Args.routeTable (Out.id Kind.vpc "net-vpc")⟩,
        ⟨"net-isolated-0-route", [ResourceOption.Parent "net"],
          Args.route (Out.id Kind.routeTable "%s-rtnet-isolated-0")
            (Out.lit "0.0.0.0/0") none⟩,
        ⟨"net-isolated-0-rt-assoc", [ResourceOption.Parent "net"],
          Args.routeTableAssociation (Out.id Kind.routeTable "%s-rtnet-isolated-0")
            (Out.id Kind.subnet "net-isolated-0-subnet")⟩ ],
        []⟩
      { VpcId := some (Out.id Kind.vpc "net-vpc"),
        PrivateSubnetIDs := some [Out.id Kind.subnet "net-private-0-subnet"],
        PublicSubnetIDs := some [Out.id Kind.subnet "net-public-0-subnet"],
        IsolatedSubnetIds := some [Out.id Kind.subnet "net-isolated-0-subnet"],
        NatGatewayIds := none } := by decide!

end Provider
